import Mathlib

/-!
Shallow embedding of the Hastrology lottery program
(src/hastrology_program/programs/hastrology_program/src).

Machine integers: u64 values are Nat together with the bound `< 2 ^ 64`;
i64 values are Int together with the bound `[-2 ^ 63, 2 ^ 63)`.  Rust
checked_add / checked_sub become Option-valued functions; the unchecked
operators the source uses in payout.rs (the fee multiplication on line 76
and the lamport `-=` / `+=` on lines 82-87, and the `winner - 1` seed
computation on line 45) are modelled with explicit wrap-around modulo
2 ^ 64, the release-mode semantics of Rust integer arithmetic.

Pubkeys are opaque and modelled as Nat.  The external collaborators are
modelled by their contracts only: the VRF derivation random_u64 (crate
ephemeral_vrf_sdk, not part of this repository) is abstracted as the
64-bit value it returns; the system-program transfer debits the source
iff its balance suffices; the storage layer (Anchor account resolution)
is modelled per instruction from the `#[derive(Accounts)]` constraints,
evaluated in field order before the handler body runs.
-/

deriving instance DecidableEq for Except

namespace Hastrology

/-- Number of values of a u64: `2 ^ 64`. -/
def u64Size : Nat := 2 ^ 64

/-- Smallest i64 value. -/
def i64Min : Int := -(2 ^ 63)

/-- Largest i64 value. -/
def i64Max : Int := 2 ^ 63 - 1

/-- Rust `u64::checked_add`: `none` exactly when the exact sum leaves u64 range. -/
def checkedAdd64 (a b : Nat) : Option Nat :=
  if a + b < u64Size then some (a + b) else none

/-- Rust `u64::checked_sub`: `none` exactly when the subtraction would underflow. -/
def checkedSub64 (a b : Nat) : Option Nat :=
  if b ≤ a then some (a - b) else none

/-- Rust `i64::checked_add`: `none` exactly when the exact sum leaves i64 range. -/
def checkedAddI64 (a b : Int) : Option Int :=
  if i64Min ≤ a + b ∧ a + b ≤ i64Max then some (a + b) else none

/-- Unchecked (wrapping) u64 multiplication. -/
def wmul64 (a b : Nat) : Nat := (a * b) % u64Size

/-- Unchecked (wrapping) u64 addition. -/
def wadd64 (a b : Nat) : Nat := (a + b) % u64Size

/-- Unchecked (wrapping) u64 subtraction: `(a + 2 ^ 64 - b) % 2 ^ 64`. -/
def wsub64 (a b : Nat) : Nat := (a + u64Size - b % u64Size) % u64Size

/-- Modelled from the spec: the module `errors` is declared in lib.rs but
errors.rs is not under src/.  The variant list follows section 7 of the
spec and is exactly the set of variants the instruction handlers under
src/ reference. -/
inductive HashtrologyErrors
  | LotteryIsDrawing
  | LotteryNotOver
  | UnauthorizedAuthority
  | InvalidPlatformFee
  | InvalidTicketPrice
  | InvalidWinner
  | DrawNotRequested
  | CannotRolloverWithPlayers
  | Overflow
deriving DecidableEq, Repr

/-- Failure of one instruction call: either a program error from the
`errors` module, or a framework-level failure (Anchor account resolution
finding no account at the derived address, an address or seeds constraint
mismatch, or the system-program transfer failing for lack of funds). -/
inductive CallError
  | prog (e : HashtrologyErrors)
  | accountNotInitialized
  | constraintViolation
  | insufficientFunds
deriving DecidableEq, Repr

/-- state/lottery_state.rs: the singleton `LotteryState` account. -/
structure LotteryState where
  authority : Nat
  pot_vault : Nat
  platform_wallet : Nat
  platform_fee_bps : Nat
  ticket_price : Nat
  winner : Nat
  current_lottery_id : Nat
  total_participants : Nat
  is_drawing : Bool
  lottery_endtime : Int
  commit_slot : Nat
  lottery_state_bump : Nat
  pot_vault_bump : Nat
deriving DecidableEq, Repr

/-- state/user.rs: `UserEntryReceipt`. -/
structure UserEntryReceipt where
  user : Nat
  lottery_id : Nat
  ticket_number : Nat
deriving DecidableEq, Repr

/-- state/user.rs: `UserTicket`. -/
structure UserTicket where
  user : Nat
  lottery_id : Nat
  is_winner : Bool
  prize_amount : Nat
  is_claimed : Bool
deriving DecidableEq, Repr

/-- Well-formed u64/u16/i64 field contents of a `LotteryState`. -/
def LotteryState.WF (s : LotteryState) : Prop :=
  s.platform_fee_bps < 2 ^ 16 ∧ s.ticket_price < u64Size ∧ s.winner < u64Size ∧
  s.current_lottery_id < u64Size ∧ s.total_participants < u64Size ∧
  i64Min ≤ s.lottery_endtime ∧ s.lottery_endtime ≤ i64Max ∧ s.commit_slot < u64Size

instance (s : LotteryState) : Decidable s.WF := by
  unfold LotteryState.WF; infer_instance

/-- instructions/initialize.rs, `initialize_handle` (lines 37-76): validates
the fee rate and ticket price, then writes the initial state. -/
def initialize_handle (authorityKey potVaultKey platformWalletKey : Nat)
    (ticketPrice platformFeeBps : Nat) (firstLotteryEndtime : Int)
    (lotteryStateBump potVaultBump : Nat) : Except CallError LotteryState :=
  if 10000 < platformFeeBps then .error (.prog .InvalidPlatformFee) else
  if ticketPrice = 0 then .error (.prog .InvalidTicketPrice) else
  .ok { authority := authorityKey, pot_vault := potVaultKey,
        platform_wallet := platformWalletKey,
        platform_fee_bps := platformFeeBps, ticket_price := ticketPrice,
        winner := 0, current_lottery_id := 1, total_participants := 0,
        is_drawing := false, lottery_endtime := firstLotteryEndtime,
        commit_slot := 0, lottery_state_bump := lotteryStateBump,
        pot_vault_bump := potVaultBump }

/-- Result of one successful enter_lottery call: the updated lottery state,
the two freshly initialized accounts, the remaining buyer balance and the
amount credited to the pot vault by the transfer CPI. -/
structure EnterResult where
  state : LotteryState
  receipt : UserEntryReceipt
  ticket : UserTicket
  userBalance : Nat
  potCredit : Nat
deriving DecidableEq, Repr

/-- instructions/enter_lottery.rs, `enter_lottery_handler` (lines 54-97).
The handler reads no clock.  Step order follows the source: the
`is_drawing` guard (line 58), ticket number via checked_add (line 63), the
two `set_inner` writes (lines 65-77), the transfer of `ticket_price` from
the buyer to the pot (lines 79-86, failing when the buyer balance is
short), then the participant counter update via checked_add (line 88). -/
def enter_lottery_handler (s : LotteryState) (userKey userBalance : Nat) :
    Except CallError EnterResult :=
  if s.is_drawing then .error (.prog .LotteryIsDrawing) else
  match checkedAdd64 s.total_participants 1 with
  | none => .error (.prog .Overflow)
  | some ticketNumber =>
    let receipt : UserEntryReceipt :=
      { user := userKey, lottery_id := s.current_lottery_id,
        ticket_number := ticketNumber }
    let ticket : UserTicket :=
      { user := userKey, lottery_id := s.current_lottery_id,
        is_winner := false, prize_amount := 0, is_claimed := false }
    if userBalance < s.ticket_price then .error .insufficientFunds else
    match checkedAdd64 s.total_participants 1 with
    | none => .error (.prog .Overflow)
    | some newTotal =>
      .ok { state := { s with total_participants := newTotal },
            receipt := receipt, ticket := ticket,
            userBalance := userBalance - s.ticket_price,
            potCredit := s.ticket_price }

/-- instructions/request_draw.rs: the accounts constraint
`authority.key() == lottery_state.authority` (line 16) followed by
`request_draw_handler` (lines 35-67): the time gate (line 41) and the
`is_drawing := true` write (line 42); the outbound VRF request has no
effect on this state and is modelled as succeeding. -/
def request_draw (callerKey : Nat) (s : LotteryState) (now : Int) :
    Except CallError LotteryState :=
  if callerKey = s.authority then
    if s.lottery_endtime ≤ now then .ok { s with is_drawing := true }
    else .error (.prog .LotteryNotOver)
  else .error (.prog .UnauthorizedAuthority)

/-- instructions/resolve_draw.rs, `resolve_draw_handler` (lines 20-41),
with `rawRandomValue` the u64 produced by the external `random_u64` from
the 32-byte randomness.  No guard reads `is_drawing`. -/
def resolve_draw_handler (s : LotteryState) (rawRandomValue : Nat) :
    Except CallError LotteryState :=
  if s.total_participants = 0 then .ok { s with winner := 0 }
  else
    let winning_index := rawRandomValue % s.total_participants
    match checkedAdd64 winning_index 1 with
    | none => .error (.prog .Overflow)
    | some w => .ok { s with winner := w }

/-- instructions/resolve_draw.rs: the accounts gate
`#[account(address = VRF_PROGRAM_IDENTITY)] vrf_program: Signer` (line 7)
followed by the handler.  `vrfIdentityKey` stands for the external
constant VRF_PROGRAM_IDENTITY. -/
def resolve_draw (callerKey vrfIdentityKey : Nat) (s : LotteryState)
    (rawRandomValue : Nat) : Except CallError LotteryState :=
  if callerKey = vrfIdentityKey then resolve_draw_handler s rawRandomValue
  else .error .constraintViolation

/-- The non-state accounts presented to a payout call: the signer, the
lamport balances of the pot vault, platform wallet and winner wallet, and
the winner wallet key. -/
structure PayoutAccounts where
  authorityKey : Nat
  potBalance : Nat
  platformBalance : Nat
  winnerKey : Nat
  winnerBalance : Nat
deriving DecidableEq, Repr

/-- The per-(lottery_id, ticket index) store of `UserTicket` accounts the
storage layer resolves seeds against. -/
def TicketStore : Type := Nat → Nat → Option UserTicket

/-- instructions/payout.rs, the `#[derive(Accounts)]` constraints
(lines 10-61), evaluated before the handler: the authority key equality
(line 14), then the winning_ticket lookup at seed index
`lottery_state.winner - 1` (line 45) — an unchecked u64 subtraction,
modelled as wrap-around — failing with an account-resolution error when no
ticket exists there, then the two winning_ticket constraints (lines 48-49)
and the winner wallet constraint (line 56). -/
def payout_validate (s : LotteryState) (ts : TicketStore)
    (acc : PayoutAccounts) : Except CallError UserTicket :=
  if acc.authorityKey = s.authority then
    match ts s.current_lottery_id (wsub64 s.winner 1) with
    | none => .error .accountNotInitialized
    | some t =>
      if t.lottery_id = s.current_lottery_id then
        if t.is_winner then .error (.prog .InvalidWinner)
        else if acc.winnerKey = t.user then .ok t
        else .error (.prog .InvalidWinner)
      else .error (.prog .InvalidWinner)
  else .error (.prog .UnauthorizedAuthority)

/-- payout.rs line 76: `(total_pot_balance * platform_fee_bps as u64) / 10_000`
with the unchecked (wrapping) u64 multiplication. -/
def payoutFee (p bps : Nat) : Nat := wmul64 p bps / 10000

/-- Result of one successful payout call. -/
structure PayoutResult where
  state : LotteryState
  ticket : UserTicket
  fee : Nat
  prize : Nat
  potBalance : Nat
  platformBalance : Nat
  winnerBalance : Nat
deriving DecidableEq, Repr

/-- The body of `payout_handler` after its `is_drawing` guard
(payout.rs lines 74-107): the fee (line 76, wrapping multiply), the prize
via checked_sub (lines 78-80), the four unchecked lamport moves
(lines 82-87, wrapping), the winning-ticket mutation (lines 91-92) and the
round-state rollover (lines 94-98) with checked id and endtime updates. -/
def payout_apply (s : LotteryState) (t : UserTicket)
    (acc : PayoutAccounts) : Except CallError PayoutResult :=
  let fee := payoutFee acc.potBalance s.platform_fee_bps
  match checkedSub64 acc.potBalance fee with
  | none => .error (.prog .Overflow)
  | some prize =>
    let pot1 := wsub64 acc.potBalance fee
    let plat1 := wadd64 acc.platformBalance fee
    let pot2 := wsub64 pot1 prize
    let win1 := wadd64 acc.winnerBalance prize
    let t2 := { t with is_winner := true, prize_amount := prize }
    match checkedAdd64 s.current_lottery_id 1 with
    | none => .error (.prog .Overflow)
    | some newId =>
      match checkedAddI64 s.lottery_endtime 86400 with
      | none => .error (.prog .Overflow)
      | some newEnd =>
        .ok { state := { s with
                         total_participants := 0
                         current_lottery_id := newId
                         lottery_endtime := newEnd
                         is_drawing := false
                         commit_slot := 0 },
              ticket := t2, fee := fee, prize := prize,
              potBalance := pot2, platformBalance := plat1,
              winnerBalance := win1 }

/-- instructions/payout.rs, `payout_handler` (lines 64-108): the
`is_drawing` guard of lines 68-71 (`require!(is_drawing, DrawNotRequested)`)
followed by the arithmetic and rollover body `payout_apply`. -/
def payout_handler (s : LotteryState) (t : UserTicket)
    (acc : PayoutAccounts) : Except CallError PayoutResult :=
  if s.is_drawing then payout_apply s t acc
  else .error (.prog .DrawNotRequested)

/-- One full payout call: account validation then the handler. -/
def payout (s : LotteryState) (ts : TicketStore) (acc : PayoutAccounts) :
    Except CallError PayoutResult :=
  match payout_validate s ts acc with
  | .error e => .error e
  | .ok t => payout_handler s t acc

/-- instructions/reset.rs, `reset_handle` (lines 23-52).  The accounts
struct (lines 7-20) places no constraint on the signer, so `callerKey` is
taken but — like the source — never compared against anything: the only
guards are the time gate (lines 30-33) and the zero-participants gate
(lines 35-38), then the rollover writes (lines 40-45) with checked id and
endtime updates. -/
def reset_handle (_callerKey : Nat) (s : LotteryState) (now : Int) :
    Except CallError LotteryState :=
  if s.lottery_endtime ≤ now then
  if s.total_participants = 0 then
  match checkedAdd64 s.current_lottery_id 1 with
  | none => .error (.prog .Overflow)
  | some newId =>
    match checkedAddI64 s.lottery_endtime 100 with
    | none => .error (.prog .Overflow)
    | some newEnd =>
      .ok { s with
            winner := 0
            total_participants := 0
            current_lottery_id := newId
            lottery_endtime := newEnd
            is_drawing := false
            commit_slot := 0 }
  else .error (.prog .CannotRolloverWithPlayers)
  else .error (.prog .LotteryNotOver)

/-- Projection: the winner field of a successful state-returning call. -/
def winnerOf (r : Except CallError LotteryState) : Option Nat :=
  match r with
  | .ok s => some s.winner
  | .error _ => none

/-- Projection: the fee of a successful payout call. -/
def feeOf (r : Except CallError PayoutResult) : Option Nat :=
  match r with
  | .ok res => some res.fee
  | .error _ => none

/-- Whether a call succeeded. -/
def callOk {α : Type} (r : Except CallError α) : Bool :=
  match r with
  | .ok _ => true
  | .error _ => false

/-- A concrete well-formed state: authority key 7, platform wallet key 8,
fee 500 bps, ticket price 1000 lamports, round 1 open with no
participants, round end time 1000. -/
def baseState : LotteryState :=
  { authority := 7, pot_vault := 11, platform_wallet := 8,
    platform_fee_bps := 500, ticket_price := 1000,
    winner := 0, current_lottery_id := 1, total_participants := 0,
    is_drawing := false, lottery_endtime := 1000, commit_slot := 0,
    lottery_state_bump := 254, pot_vault_bump := 253 }

/-- The empty ticket store. -/
def emptyTickets : TicketStore := fun _ _ => none

/-- A store holding exactly one ticket, at the given round and index. -/
def singleTicket (lid idx : Nat) (t : UserTicket) : TicketStore :=
  fun l i => if l = lid ∧ i = idx then some t else none

/-- The ticket of the buyer with key 9 in round 1. -/
def ticket9 : UserTicket :=
  { user := 9, lottery_id := 1, is_winner := false,
    prize_amount := 0, is_claimed := false }

/-- `baseState` after three entries, a requested draw and a resolution that
picked ticket index 0 (winner field 1). -/
def drawnState : LotteryState :=
  { baseState with winner := 1, is_drawing := true, total_participants := 3 }

/-- A store holding only `ticket9` at round 1, index 0. -/
def oneTicket : TicketStore := singleTicket 1 0 ticket9

/-- Payout accounts presented by the authority with the given pot balance,
empty platform and winner wallets, winner wallet key 9. -/
def accWith (p : Nat) : PayoutAccounts :=
  { authorityKey := 7, potBalance := p, platformBalance := 0,
    winnerKey := 9, winnerBalance := 0 }

/-- `drawnState` with a 100 percent platform fee (10000 bps). -/
def fullFeeState : LotteryState :=
  { drawnState with platform_fee_bps := 10000 }

/-- A state in DRAWING with the winner field still at the no-winner
sentinel 0 — reachable by resolving a draw with zero participants. -/
def zeroWinnerDrawn : LotteryState := { baseState with is_drawing := true }

/-- `baseState` with the participant counter at the u64 ceiling. -/
def ceilState : LotteryState :=
  { baseState with total_participants := u64Size - 1 }

/-- `baseState` with a stale winner field 5 and no participants, as left
behind by a payout (payout does not clear the winner field). -/
def winner5State : LotteryState := { baseState with winner := 5 }

/-- An OPEN state (drawing flag false) whose winner field is 1 and whose
round-1 ticket 0 exists: payout account validation passes on it. -/
def validWinnerOpen : LotteryState := { baseState with winner := 1 }

/-- The result of a first entry by buyer 5 (balance 1000) into `baseState`. -/
def enterResC : EnterResult :=
  { state := { baseState with total_participants := 1 },
    receipt := { user := 5, lottery_id := 1, ticket_number := 1 },
    ticket := { user := 5, lottery_id := 1, is_winner := false,
                prize_amount := 0, is_claimed := false },
    userBalance := 0, potCredit := 1000 }

/-! ## Helper lemmas -/

/-- A successful draw resolution writes exactly the winner field: 0 with no
participants, `raw % total + 1` otherwise. -/
theorem resolve_draw_handler_eq (s : LotteryState) (r : Nat)
    (hs : s.total_participants < u64Size) :
    resolve_draw_handler s r =
      .ok { s with winner := if s.total_participants = 0 then 0
                             else r % s.total_participants + 1 } := by
  by_cases h0 : s.total_participants = 0
  · simp [resolve_draw_handler, h0]
  · have hpos : 0 < s.total_participants := Nat.pos_of_ne_zero h0
    have hlt : r % s.total_participants < s.total_participants := Nat.mod_lt r hpos
    have hadd : checkedAdd64 (r % s.total_participants) 1 =
        some (r % s.total_participants + 1) := by
      unfold checkedAdd64
      rw [if_pos (by omega)]
    simp [resolve_draw_handler, h0, hadd]

/-- Characterization of a successful entry: the round must be open, the
buyer funded, the counter below its ceiling; the counter grows by exactly
one and the receipt records that 1-based ticket number. -/
theorem enter_ok_spec (s : LotteryState) (u ub : Nat) (res : EnterResult)
    (h : enter_lottery_handler s u ub = .ok res) :
    s.is_drawing = false ∧ s.ticket_price ≤ ub ∧
    s.total_participants + 1 < u64Size ∧
    res.state = { s with total_participants := s.total_participants + 1 } ∧
    res.receipt = { user := u, lottery_id := s.current_lottery_id,
                    ticket_number := s.total_participants + 1 } := by
  unfold enter_lottery_handler at h
  by_cases hd : s.is_drawing
  · rw [if_pos hd] at h
    exact absurd h (by simp)
  · rw [if_neg hd] at h
    cases h1 : checkedAdd64 s.total_participants 1 with
    | none => simp [h1] at h
    | some tn =>
      simp only [h1] at h
      by_cases hb : ub < s.ticket_price
      · rw [if_pos hb] at h
        exact absurd h (by simp)
      · rw [if_neg hb] at h
        have h2 : s.total_participants + 1 < u64Size ∧
            tn = s.total_participants + 1 := by
          unfold checkedAdd64 at h1
          split at h1
          · exact ⟨by assumption, (Option.some.inj h1).symm⟩
          · exact Option.noConfusion h1
        rcases h2 with ⟨hlt, htn⟩
        subst htn
        injection h with hres
        subst hres
        exact ⟨by simpa using hd, by omega, hlt, rfl, rfl⟩

/-- Characterization of a successful payout: the drawing flag must have
been true; the fee is the (wrapping) basis-point computation on the pot
balance, the prize is the exact remainder, and the rolled-over state keeps
the old winner field while clearing the drawing flag. -/
theorem payout_ok_spec (s : LotteryState) (ts : TicketStore)
    (acc : PayoutAccounts) (res : PayoutResult)
    (h : payout s ts acc = .ok res) :
    s.is_drawing = true ∧
    res.fee = payoutFee acc.potBalance s.platform_fee_bps ∧
    res.fee ≤ acc.potBalance ∧
    res.prize = acc.potBalance - res.fee ∧
    res.state.winner = s.winner ∧
    res.state.is_drawing = false := by
  unfold payout at h
  cases hv : payout_validate s ts acc with
  | error e =>
    rw [hv] at h
    exact absurd h (by simp)
  | ok t =>
    simp only [hv] at h
    unfold payout_handler at h
    by_cases hd : s.is_drawing
    · rw [if_pos hd] at h
      unfold payout_apply at h
      cases hsub : checkedSub64 acc.potBalance
          (payoutFee acc.potBalance s.platform_fee_bps) with
      | none => simp [hsub] at h
      | some prize =>
        simp only [hsub] at h
        cases hadd : checkedAdd64 s.current_lottery_id 1 with
        | none => simp [hadd] at h
        | some newId =>
          simp only [hadd] at h
          cases hend : checkedAddI64 s.lottery_endtime 86400 with
          | none => simp [hend] at h
          | some newEnd =>
            simp only [hend] at h
            injection h with hres
            subst hres
            have hps : payoutFee acc.potBalance s.platform_fee_bps ≤
                acc.potBalance ∧
                prize = acc.potBalance -
                  payoutFee acc.potBalance s.platform_fee_bps := by
              unfold checkedSub64 at hsub
              split at hsub
              · exact ⟨by assumption, (Option.some.inj hsub).symm⟩
              · exact Option.noConfusion hsub
            exact ⟨hd, rfl, hps.1, hps.2, rfl, rfl⟩
    · rw [if_neg hd] at h
      exact absurd h (by simp)

/-- The fee computed by payout never exceeds the pot balance. -/
theorem payoutFee_le_self (p bps : Nat) (hp : p < u64Size)
    (hb : bps ≤ 10000) : payoutFee p bps ≤ p := by
  unfold payoutFee wmul64
  rcases Nat.lt_or_ge (p * bps) u64Size with h | h
  · rw [Nat.mod_eq_of_lt h]
    calc p * bps / 10000 ≤ p * 10000 / 10000 :=
          Nat.div_le_div_right (Nat.mul_le_mul (le_refl p) hb)
    _ = p := Nat.mul_div_cancel p (by norm_num)
  · have hp10 : u64Size ≤ p * 10000 :=
      le_trans h (Nat.mul_le_mul (le_refl p) hb)
    have hm : (p * bps) % u64Size < u64Size :=
      Nat.mod_lt _ (by unfold u64Size; positivity)
    have hu : u64Size = 18446744073709551616 := by norm_num [u64Size]
    rw [hu] at hp10 hm ⊢
    omega

/-- Entering with the participant counter at its u64 ceiling aborts with
Overflow at the checked ticket-number computation. -/
theorem enter_ceiling_overflow (s : LotteryState) (u ub : Nat)
    (hd : s.is_drawing = false) (ht : s.total_participants = u64Size - 1) :
    enter_lottery_handler s u ub = .error (.prog .Overflow) := by
  have hnone : checkedAdd64 s.total_participants 1 = none := by
    unfold checkedAdd64
    rw [if_neg (by unfold u64Size at ht ⊢; omega)]
  simp [enter_lottery_handler, hd, hnone]

/-- Resetting with the round id at its u64 ceiling aborts with Overflow at
the checked id increment. -/
theorem reset_ceiling_overflow (c : Nat) (s : LotteryState) (now : Int)
    (h1 : s.lottery_endtime ≤ now) (h2 : s.total_participants = 0)
    (h3 : s.current_lottery_id = u64Size - 1) :
    reset_handle c s now = .error (.prog .Overflow) := by
  have hnone : checkedAdd64 s.current_lottery_id 1 = none := by
    unfold checkedAdd64
    rw [if_neg (by unfold u64Size at h3 ⊢; omega)]
  simp [reset_handle, h1, h2, hnone]

/-! ## Claim theorems -/

/-- C4: for every state and every derived 64-bit random value, a successful
resolve_draw sets the winner index to `(raw mod participant_count) + 1`,
a value in `[1, participant_count]`, when `participant_count > 0`, and to
exactly 0 when `participant_count == 0`. -/
theorem C4_resolved_winner_in_range (s : LotteryState) (r : Nat)
    (hs : s.total_participants < u64Size) :
    (s.total_participants = 0 →
      resolve_draw_handler s r = .ok { s with winner := 0 }) ∧
    (0 < s.total_participants →
      resolve_draw_handler s r =
        .ok { s with winner := r % s.total_participants + 1 } ∧
      1 ≤ r % s.total_participants + 1 ∧
      r % s.total_participants + 1 ≤ s.total_participants) := by
  constructor
  · intro h0
    rw [resolve_draw_handler_eq s r hs]
    simp [h0]
  · intro hpos
    have h0 : ¬ s.total_participants = 0 := by omega
    have hlt : r % s.total_participants < s.total_participants :=
      Nat.mod_lt r hpos
    refine ⟨?_, by omega, by omega⟩
    rw [resolve_draw_handler_eq s r hs]
    simp [h0]

/-- Witness for C4 at participant count 3 and raw value 7: winner 2. -/
theorem C4_resolved_winner_in_range_witness :
    resolve_draw_handler { baseState with total_participants := 3 } 7 =
      .ok { { baseState with total_participants := 3 } with winner := 2 } :=
  ((C4_resolved_winner_in_range { baseState with total_participants := 3 } 7
    (by decide)).2 (by decide)).1

/-- C10: resolve_draw imposes no precondition on the drawing flag: for
every state, including one with `is_drawing == false`, an
oracle-authenticated resolve_draw call succeeds and overwrites the winner
index from the supplied randomness and the current participant count. -/
theorem C10_resolve_ignores_drawing_flag (callerKey vrfIdentityKey : Nat)
    (s : LotteryState) (r : Nat) (hc : callerKey = vrfIdentityKey)
    (hs : s.total_participants < u64Size) :
    resolve_draw callerKey vrfIdentityKey s r =
      .ok { s with winner := if s.total_participants = 0 then 0
                             else r % s.total_participants + 1 } := by
  unfold resolve_draw
  rw [if_pos hc]
  exact resolve_draw_handler_eq s r hs

/-- Witness for C10 on an OPEN state (`is_drawing = false`, no draw
requested): the call still succeeds and overwrites the winner. -/
theorem C10_resolve_ignores_drawing_flag_witness :
    baseState.is_drawing = false ∧
    resolve_draw 3 3 { baseState with total_participants := 2 } 9 =
      .ok { { baseState with total_participants := 2 } with winner := 2 } :=
  ⟨rfl, C10_resolve_ignores_drawing_flag 3 3
    { baseState with total_participants := 2 } 9 rfl (by decide)⟩

/-- C7: the reset (rollover) operation compares no signer against the
stored authority: any two callers get identical outcomes on the same prior
state and clock, reset never fails with UnauthorizedAuthority, and its
guards are exactly the time gate (LotteryNotOver) and the
zero-participants gate (CannotRolloverWithPlayers). -/
theorem C7_reset_has_no_authority_check :
    (∀ c1 c2 s now, reset_handle c1 s now = reset_handle c2 s now) ∧
    (∀ c s now,
      reset_handle c s now ≠ .error (.prog .UnauthorizedAuthority)) ∧
    (∀ c s now, reset_handle c s now = .error (.prog .LotteryNotOver) ↔
      now < s.lottery_endtime) ∧
    (∀ c s now,
      reset_handle c s now = .error (.prog .CannotRolloverWithPlayers) ↔
      (s.lottery_endtime ≤ now ∧ s.total_participants ≠ 0)) := by
  refine ⟨fun c1 c2 s now => rfl, ?_, ?_, ?_⟩ <;>
    intro c s now <;>
    unfold reset_handle <;>
    by_cases h1 : s.lottery_endtime ≤ now
  all_goals
    first
    | (rw [if_neg h1]; simp <;> omega)
    | (rw [if_pos h1]
       by_cases h2 : s.total_participants = 0
       · rw [if_pos h2]
         cases checkedAdd64 s.current_lottery_id 1 with
         | none => simp <;> omega
         | some newId =>
           cases checkedAddI64 s.lottery_endtime 100 with
           | none => simp <;> omega
           | some newEnd => simp <;> omega
       · rw [if_neg h2]; simp <;> omega)

/-- Witness for C7: two different callers produce the same result, and a
premature reset fails with LotteryNotOver. -/
theorem C7_reset_has_no_authority_check_witness :
    reset_handle 1 baseState 1000 = reset_handle 2 baseState 1000 ∧
    reset_handle 1 baseState 0 = .error (.prog .LotteryNotOver) :=
  ⟨C7_reset_has_no_authority_check.1 1 2 baseState 1000,
   (C7_reset_has_no_authority_check.2.2.1 1 baseState 0).mpr (by decide)⟩

/-- C1 counterexample: at pot balance `2 ^ 63` and fee rate 500 bps the
code computes fee 0 — the unchecked multiplication wraps — while the
claimed value `floor(P * fee_bps / 10000)` is 461168601842738790. -/
theorem C1_counterexample_wrapped_fee :
    drawnState.platform_fee_bps = 500 ∧
    feeOf (payout drawnState oneTicket (accWith (2 ^ 63))) = some 0 ∧
    2 ^ 63 * 500 / 10000 = 461168601842738790 ∧
    (0 : Nat) ≠ 461168601842738790 := by decide

/-- C1 amended: the fee never exceeds the pot balance and
`fee + prize == P` holds exactly on every successful payout, for every
`fee_bps ≤ 10000` and every u64 balance `P`; the fee equals
`floor(P * fee_bps / 10000)` whenever the product `P * fee_bps` fits in a
u64 (otherwise the unchecked multiplication wraps); with `P = 3000` and
`fee_bps = 500` the fee is 150 and the prize 2850. -/
theorem C1_fee_prize_exact (p bps : Nat) (hp : p < u64Size)
    (hb : bps ≤ 10000) :
    payoutFee p bps ≤ p ∧
    payoutFee p bps + (p - payoutFee p bps) = p ∧
    (p * bps < u64Size → payoutFee p bps = p * bps / 10000) ∧
    payoutFee 3000 500 = 150 ∧ (3000 : Nat) - payoutFee 3000 500 = 2850 ∧
    (∀ s ts acc res, payout s ts acc = .ok res → acc.potBalance = p →
      s.platform_fee_bps = bps → res.fee + res.prize = p) := by
  have hle := payoutFee_le_self p bps hp hb
  refine ⟨hle, by omega, ?_, by decide, by decide, ?_⟩
  · intro hlt
    unfold payoutFee wmul64
    rw [Nat.mod_eq_of_lt hlt]
  · intro s ts acc res h hpp hbb
    have hs := payout_ok_spec s ts acc res h
    rw [hpp, hbb] at hs
    rcases hs with ⟨-, hfe, hfle, hpr, -, -⟩
    omega

/-- Witness for C1 at the spec scenario `P = 3000`, `fee_bps = 500`. -/
theorem C1_fee_prize_exact_witness :
    payoutFee 3000 500 = 150 ∧
    payoutFee 3000 500 + (3000 - payoutFee 3000 500) = 3000 :=
  ⟨(C1_fee_prize_exact 3000 500 (by decide) (by decide)).2.2.2.1,
   (C1_fee_prize_exact 3000 500 (by decide) (by decide)).2.1⟩

/-- C2: on a state whose winner field is 0, payout is not explicitly
rejected before the index arithmetic: the unsigned `winner - 1` IS
evaluated and wraps to `2 ^ 64 - 1`, and the call proceeds into the
ticket lookup at that index, failing only as a missing-account
resolution error. -/
theorem C2_winner_zero_not_rejected :
    zeroWinnerDrawn.winner = 0 ∧
    wsub64 zeroWinnerDrawn.winner 1 = u64Size - 1 ∧
    payout zeroWinnerDrawn emptyTickets (accWith 3000) =
      .error .accountNotInitialized := by decide

/-- C3 counterexample: payout performs an unchecked multiplication — at
pot balance `2 ^ 63` and fee rate 10000 bps the product leaves u64 range,
yet the call succeeds with a wrapped fee of 0 instead of aborting. -/
theorem C3_counterexample_unchecked_multiply :
    u64Size ≤ 2 ^ 63 * 10000 ∧
    feeOf (payout fullFeeState oneTicket (accWith (2 ^ 63))) = some 0 := by
  exact ⟨by decide, by decide⟩

/-- C3 amended: the counter and round-state arithmetic of enter_lottery
and reset is checked and aborts with Overflow at the u64 ceiling, but
payout computes its fee with an unchecked wrapping u64 multiplication. -/
theorem C3_checked_except_payout :
    (∀ s u ub, s.is_drawing = false → s.total_participants = u64Size - 1 →
      enter_lottery_handler s u ub = .error (.prog .Overflow)) ∧
    (∀ c s now, s.lottery_endtime ≤ now → s.total_participants = 0 →
      s.current_lottery_id = u64Size - 1 →
      reset_handle c s now = .error (.prog .Overflow)) ∧
    (∀ p bps, payoutFee p bps = p * bps % u64Size / 10000) :=
  ⟨fun s u ub hd ht => enter_ceiling_overflow s u ub hd ht,
   fun c s now h1 h2 h3 => reset_ceiling_overflow c s now h1 h2 h3,
   fun _ _ => rfl⟩

/-- Witness for C3: the checked aborts at the u64 ceilings. -/
theorem C3_checked_except_payout_witness :
    enter_lottery_handler ceilState 5 1000 = .error (.prog .Overflow) ∧
    reset_handle 1 { baseState with current_lottery_id := u64Size - 1 } 1000 =
      .error (.prog .Overflow) :=
  ⟨C3_checked_except_payout.1 ceilState 5 1000 rfl rfl,
   C3_checked_except_payout.2.1 1
     { baseState with current_lottery_id := u64Size - 1 } 1000
     (by decide) rfl rfl⟩

/-- C5 counterexample: a repeated request_draw on a round that is already
drawing succeeds again — there is no once-only guard. -/
theorem C5_counterexample_repeat_succeeds :
    zeroWinnerDrawn.is_drawing = true ∧
    request_draw 7 zeroWinnerDrawn 1000 = .ok zeroWinnerDrawn := by decide

/-- C5 amended: an authority request_draw strictly before the end time
always fails with LotteryNotOver (leaving the state unchanged); at or
after the end time it succeeds and sets drawing = true — including on
repeated calls in the same round, since no guard prevents re-requests. -/
theorem C5_time_gate (c : Nat) (s : LotteryState) (now : Int)
    (hc : c = s.authority) :
    (now < s.lottery_endtime →
      request_draw c s now = .error (.prog .LotteryNotOver)) ∧
    (s.lottery_endtime ≤ now →
      request_draw c s now = .ok { s with is_drawing := true }) := by
  unfold request_draw
  rw [if_pos hc]
  constructor
  · intro h
    rw [if_neg (by omega)]
  · intro h
    rw [if_pos h]

/-- Witness for C5: premature request fails; a late one succeeds even when
the drawing flag is already set. -/
theorem C5_time_gate_witness :
    request_draw 7 baseState 0 = .error (.prog .LotteryNotOver) ∧
    request_draw 7 zeroWinnerDrawn 1000 = .ok zeroWinnerDrawn :=
  ⟨(C5_time_gate 7 baseState 0 rfl).1 (by decide),
   (C5_time_gate 7 zeroWinnerDrawn 1000 rfl).2 (by decide)⟩

/-- C6 counterexample: reset also writes the winner field — on a state
with a stale winner 5 and no participants, a successful reset overwrites
it with 0. -/
theorem C6_counterexample_reset_writes_winner :
    winner5State.winner = 5 ∧
    winnerOf (reset_handle 1 winner5State 1000) = some 0 := by decide

/-- C6 amended: the winner field is written only by resolve_draw and by
reset (which clears it to 0); enter_lottery, request_draw and payout all
preserve it. -/
theorem C6_winner_writers :
    (∀ s u ub res, enter_lottery_handler s u ub = .ok res →
      res.state.winner = s.winner) ∧
    (∀ c s now s2, request_draw c s now = .ok s2 → s2.winner = s.winner) ∧
    (∀ s ts acc res, payout s ts acc = .ok res →
      res.state.winner = s.winner) ∧
    (∀ c s now s2, reset_handle c s now = .ok s2 → s2.winner = 0) := by
  refine ⟨?_, ?_, ?_, ?_⟩
  · intro s u ub res h
    rw [(enter_ok_spec s u ub res h).2.2.2.1]
  · intro c s now s2 h
    unfold request_draw at h
    by_cases hc : c = s.authority
    · rw [if_pos hc] at h
      by_cases ht : s.lottery_endtime ≤ now
      · rw [if_pos ht] at h
        injection h with h2
        subst h2
        rfl
      · rw [if_neg ht] at h
        exact absurd h (by simp)
    · rw [if_neg hc] at h
      exact absurd h (by simp)
  · intro s ts acc res h
    exact (payout_ok_spec s ts acc res h).2.2.2.2.1
  · intro c s now s2 h
    unfold reset_handle at h
    by_cases h1 : s.lottery_endtime ≤ now
    · rw [if_pos h1] at h
      by_cases h2 : s.total_participants = 0
      · rw [if_pos h2] at h
        cases ha : checkedAdd64 s.current_lottery_id 1 with
        | none => simp [ha] at h
        | some nid =>
          simp only [ha] at h
          cases he : checkedAddI64 s.lottery_endtime 100 with
          | none => simp [he] at h
          | some nend =>
            simp only [he] at h
            injection h with h3
            subst h3
            rfl
      · rw [if_neg h2] at h
        exact absurd h (by simp)
    · rw [if_neg h1] at h
      exact absurd h (by simp)

/-- Witness for C6: a successful entry and a successful draw request both
leave the winner field untouched. -/
theorem C6_winner_writers_witness :
    enterResC.state.winner = baseState.winner ∧
    ({ baseState with is_drawing := true } : LotteryState).winner =
      baseState.winner :=
  ⟨C6_winner_writers.1 baseState 5 1000 enterResC (by decide),
   C6_winner_writers.2.1 7 baseState 1000
     { baseState with is_drawing := true } (by decide)⟩

/-- C8 counterexample: with the drawing flag false AND winner 0 the call
fails in account validation with a missing-account error, not with
DrawNotRequested — account constraints run before the handler guard. -/
theorem C8_counterexample_earlier_error :
    baseState.is_drawing = false ∧
    payout baseState emptyTickets (accWith 3000) =
      .error .accountNotInitialized ∧
    (CallError.accountNotInitialized ≠ .prog .DrawNotRequested) := by decide

/-- C8 amended: a payout on a state with drawing flag false never
succeeds; when the account-validation phase (winning-ticket lookup and
constraints) passes, the failure is exactly DrawNotRequested; when
validation fails the call aborts earlier with that validation error. -/
theorem C8_drawing_false_payout_fails (s : LotteryState) (ts : TicketStore)
    (acc : PayoutAccounts) (hd : s.is_drawing = false) :
    (∀ res, payout s ts acc ≠ .ok res) ∧
    (∀ t, payout_validate s ts acc = .ok t →
      payout s ts acc = .error (.prog .DrawNotRequested)) := by
  constructor
  · intro res h
    have hdt := (payout_ok_spec s ts acc res h).1
    rw [hd] at hdt
    exact Bool.noConfusion hdt
  · intro t ht
    unfold payout
    simp only [ht]
    unfold payout_handler
    rw [if_neg (by simp [hd])]

/-- Witness for C8 on a drawing-flag-false state whose winner field and
ticket store let account validation pass: DrawNotRequested. -/
theorem C8_drawing_false_payout_fails_witness :
    payout validWinnerOpen oneTicket (accWith 3000) =
      .error (.prog .DrawNotRequested) :=
  (C8_drawing_false_payout_fails validWinnerOpen oneTicket (accWith 3000)
    rfl).2 ticket9 (by decide)

/-- C9: entry fails with LotteryIsDrawing exactly when the drawing flag is
true (the handler reads no clock, so entries stay possible after the end
time until a draw is requested); each successful entry raises the
participant count by exactly one and records that 1-based number in the
receipt; Overflow arises exactly at the numeric ceiling of the counter. -/
theorem C9_enter_behavior (s : LotteryState) (u ub : Nat)
    (hs : s.total_participants < u64Size) :
    (enter_lottery_handler s u ub = .error (.prog .LotteryIsDrawing) ↔
      s.is_drawing = true) ∧
    (∀ res, enter_lottery_handler s u ub = .ok res →
      res.state.total_participants = s.total_participants + 1 ∧
      res.receipt.ticket_number = s.total_participants + 1) ∧
    (enter_lottery_handler s u ub = .error (.prog .Overflow) ↔
      (s.is_drawing = false ∧ s.total_participants = u64Size - 1)) := by
  refine ⟨?_, ?_, ?_⟩
  · constructor
    · intro h
      by_cases hd : s.is_drawing
      · exact hd
      · exfalso
        cases h1 : checkedAdd64 s.total_participants 1 with
        | none => simp [enter_lottery_handler, hd, h1] at h
        | some tn =>
          by_cases hb : ub < s.ticket_price
          · simp [enter_lottery_handler, hd, h1, hb] at h
          · simp [enter_lottery_handler, hd, h1, hb] at h
    · intro hd
      simp [enter_lottery_handler, hd]
  · intro res h
    have hspec := enter_ok_spec s u ub res h
    constructor
    · rw [hspec.2.2.2.1]
    · rw [hspec.2.2.2.2]
  · constructor
    · intro h
      by_cases hd : s.is_drawing
      · simp [enter_lottery_handler, hd] at h
      · refine ⟨by simpa using hd, ?_⟩
        by_cases hceil : s.total_participants = u64Size - 1
        · exact hceil
        · exfalso
          have hsome : checkedAdd64 s.total_participants 1 =
              some (s.total_participants + 1) := by
            unfold checkedAdd64
            rw [if_pos (by unfold u64Size at hs hceil ⊢; omega)]
          by_cases hb : ub < s.ticket_price
          · simp [enter_lottery_handler, hd, hsome, hb] at h
          · simp [enter_lottery_handler, hd, hsome, hb] at h
    · rintro ⟨hd, ht⟩
      exact enter_ceiling_overflow s u ub hd ht

/-- Witness for C9: buyer 5 entering `baseState` raises the count 0 to 1
and gets ticket number 1, and entering a drawing round fails with
LotteryIsDrawing. -/
theorem C9_enter_behavior_witness :
    (enterResC.state.total_participants = baseState.total_participants + 1 ∧
      enterResC.receipt.ticket_number = baseState.total_participants + 1) ∧
    enter_lottery_handler zeroWinnerDrawn 5 1000 =
      .error (.prog .LotteryIsDrawing) :=
  ⟨(C9_enter_behavior baseState 5 1000 (by decide)).2.1 enterResC (by decide),
   (C9_enter_behavior zeroWinnerDrawn 5 1000 (by decide)).1.mpr rfl⟩

end Hastrology

